import Mathlib

/-!
Verification of the streaming session orchestration core of the bulutbot
widget client.  The TypeScript source is shallowly embedded: pure helper
functions become Lean functions, the WebSocket message handlers become
explicit step functions on session-state records, and the retry loop and
promise-settlement control flow become recursive/pure functions over
oracles describing the outcome of each suspension point.  JavaScript
runtime values (the functions take `unknown`) are modelled by `JSVal`;
JSON numbers are modelled as integers, which covers every numeric payload
appearing in these protocols (sequence numbers, timestamps, sample rates).
-/

namespace Bulut

/-- A JavaScript runtime value, as far as the embedded functions can
observe one: null, undefined, booleans, (integer) numbers, strings,
arrays and plain objects given by their own enumerable fields. -/
inductive JSVal where
  | null
  | undef
  | bool (b : Bool)
  | num (n : Int)
  | str (s : String)
  | arr (xs : List JSVal)
  | obj (fields : List (String × JSVal))

/-- JavaScript truthiness (the `Boolean(x)` coercion): false, 0, the
empty string, null and undefined are falsy; every object is truthy. -/
def JSVal.truthy : JSVal → Bool
  | .null => false
  | .undef => false
  | .bool b => b
  | .num n => n != 0
  | .str s => s ≠ ""
  | .arr _ => true
  | .obj _ => true

/-- Is the value a JS object in the sense of `typeof x === "object"` and
`x !== null`?  (Arrays are objects; `typeof null` is "object" but the
source guards with `!== null`.) -/
def JSVal.isObj : JSVal → Bool
  | .arr _ => true
  | .obj _ => true
  | _ => false

/-- Is the value a string (`typeof x === "string"`)? -/
def JSVal.isStr : JSVal → Bool
  | .str _ => true
  | _ => false

/-- Property lookup `x[k]`: `none` models the `undefined` result of
reading an absent field or a field of a non-object. -/
def jsGetField (v : JSVal) (key : String) : Option JSVal :=
  match v with
  | .obj fields => (fields.find? (fun f => f.1 = key)).map (·.2)
  | _ => none

/-- The `k in x` test: the object has an own field named `k`. -/
def jsHasField (v : JSVal) (key : String) : Bool :=
  match v with
  | .obj fields => fields.any (fun f => f.1 = key)
  | _ => false

/-- JS `ToNumber` on the values reachable in this code base, with `none`
standing for NaN: undefined is NaN, null is 0, booleans are 0/1, and a
string is a number exactly when it is a decimal integer literal. -/
def jsToNumber : Option JSVal → Option Int
  | some (.num n) => some n
  | some (.bool b) => some (if b then 1 else 0)
  | some .null => some 0
  | some (.str s) =>
      match s.toInt? with
      | some n => some n
      | none => none
  | _ => none

/-- `a - x > bound` under JS arithmetic, where `x` is a looked-up field
value: any comparison against NaN is false. -/
def jsSubGt (a : Int) (x : Option JSVal) (bound : Int) : Bool :=
  match jsToNumber x with
  | some n => a - n > bound
  | none => false

-- ── JSON.parse model ─────────────────────────────────────────────────

/-- The opening-brace character, written via its code point. -/
def obraceChar : Char := Char.ofNat 123

/-- The closing-brace character, written via its code point. -/
def cbraceChar : Char := Char.ofNat 125

/-- Skip JSON insignificant whitespace. -/
def skipWs : List Char → List Char
  | [] => []
  | c :: cs =>
      if c = ' ' ∨ c = '\t' ∨ c = '\n' ∨ c = '\r' then skipWs cs else c :: cs

/-- Value of one hex digit. -/
def hexVal (c : Char) : Option Nat :=
  if '0' ≤ c ∧ c ≤ '9' then some (c.toNat - '0'.toNat)
  else if 'a' ≤ c ∧ c ≤ 'f' then some (c.toNat - 'a'.toNat + 10)
  else if 'A' ≤ c ∧ c ≤ 'F' then some (c.toNat - 'A'.toNat + 10)
  else none

/-- Single-character JSON string escapes. -/
def escChar (c : Char) : Option Char :=
  if c = '\"' then some '\"'
  else if c = '\\' then some '\\'
  else if c = '/' then some '/'
  else if c = 'b' then some (Char.ofNat 8)
  else if c = 'f' then some (Char.ofNat 12)
  else if c = 'n' then some '\n'
  else if c = 'r' then some '\r'
  else if c = 't' then some '\t'
  else none

/-- Parse the body of a JSON string literal (the opening quote already
consumed), returning the decoded string and the remaining input. -/
def jsonStringBody : Nat → List Char → List Char → Option (String × List Char)
  | 0, _, _ => none
  | _ + 1, [], _ => none
  | fuel + 1, c :: rest, acc =>
      if c = '\"' then some (String.mk acc.reverse, rest)
      else if c = '\\' then
        match rest with
        | [] => none
        | e :: rest2 =>
            if e = 'u' then
              match rest2 with
              | a :: b :: c2 :: d :: rest3 =>
                  match hexVal a, hexVal b, hexVal c2, hexVal d with
                  | some x, some y, some z, some w =>
                      jsonStringBody fuel rest3
                        (Char.ofNat (((x * 16 + y) * 16 + z) * 16 + w) :: acc)
                  | _, _, _, _ => none
              | _ => none
            else
              match escChar e with
              | some ec => jsonStringBody fuel rest2 (ec :: acc)
              | none => none
      else jsonStringBody fuel rest (c :: acc)

/-- Parse a nonempty run of decimal digits into a natural number. -/
def jsonDigits : List Char → Option (Nat × Nat × List Char)
  | [] => none
  | c :: cs =>
      if c.isDigit then
        match jsonDigits cs with
        | some (n, len, rest) =>
            some ((c.toNat - '0'.toNat) * 10 ^ len + n, len + 1, rest)
        | none => some (c.toNat - '0'.toNat, 1, cs)
      else none

/-- Parse a JSON integer literal (optional minus, no leading zeros).
Fractional and exponent parts are not modelled: the protocols under
verification only carry integer numbers. -/
def jsonNumber (cs : List Char) : Option (Int × List Char) :=
  let (neg, cs1) : Bool × List Char :=
    match cs with
    | c :: rest => if c = '-' then (true, rest) else (false, cs)
    | [] => (false, [])
  match jsonDigits cs1 with
  | none => none
  | some (n, len, rest) =>
      if 2 ≤ len ∧ cs1.headD ' ' = '0' then none
      else some (if neg then -(n : Int) else (n : Int), rest)

mutual

/-- Parse one JSON value. -/
def jsonVal : Nat → List Char → Option (JSVal × List Char)
  | 0, _ => none
  | fuel + 1, cs =>
      match skipWs cs with
      | [] => none
      | c :: rest =>
          if c = '\"' then
            match jsonStringBody (fuel + 1) rest [] with
            | some (s, r) => some (.str s, r)
            | none => none
          else if c = obraceChar then jsonFields fuel rest true []
          else if c = '[' then jsonElems fuel rest true []
          else if c = 't' then
            match rest with
            | 'r' :: 'u' :: 'e' :: r => some (.bool true, r)
            | _ => none
          else if c = 'f' then
            match rest with
            | 'a' :: 'l' :: 's' :: 'e' :: r => some (.bool false, r)
            | _ => none
          else if c = 'n' then
            match rest with
            | 'u' :: 'l' :: 'l' :: r => some (.null, r)
            | _ => none
          else if c = '-' ∨ c.isDigit then
            match jsonNumber (c :: rest) with
            | some (n, r) => some (.num n, r)
            | none => none
          else none

/-- Parse the elements of a JSON array (opening bracket consumed). -/
def jsonElems : Nat → List Char → Bool → List JSVal → Option (JSVal × List Char)
  | 0, _, _, _ => none
  | fuel + 1, cs, first, acc =>
      match skipWs cs with
      | [] => none
      | c :: rest =>
          if c = ']' ∧ first then some (.arr acc.reverse, rest)
          else
            let body := if first then c :: rest else
              if c = ',' then rest else []
            if ¬ first ∧ c = ']' then some (.arr acc.reverse, rest)
            else if ¬ first ∧ c ≠ ',' then none
            else
              match jsonVal fuel body with
              | some (v, r) => jsonElems fuel r false (v :: acc)
              | none => none

/-- Parse the fields of a JSON object (opening brace consumed). -/
def jsonFields : Nat → List Char → Bool → List (String × JSVal) →
    Option (JSVal × List Char)
  | 0, _, _, _ => none
  | fuel + 1, cs, first, acc =>
      match skipWs cs with
      | [] => none
      | c :: rest =>
          if c = cbraceChar then some (.obj acc.reverse, rest)
          else
            let body := if first then c :: rest else
              if c = ',' then rest else []
            if ¬ first ∧ c ≠ ',' then none
            else
              match skipWs body with
              | q :: krest =>
                  if q = '\"' then
                    match jsonStringBody (fuel + 1) krest [] with
                    | some (k, afterKey) =>
                        match skipWs afterKey with
                        | ':' :: afterColon =>
                            match jsonVal fuel afterColon with
                            | some (v, r) => jsonFields fuel r false ((k, v) :: acc)
                            | none => none
                        | _ => none
                    | none => none
                  else none
              | [] => none

end

/-- `JSON.parse`: parse the whole string as one JSON value; `none`
models the thrown `SyntaxError`. -/
def jsonParse (s : String) : Option JSVal :=
  match jsonVal (2 * s.length + 2) s.toList with
  | some (v, rest) => if skipWs rest = [] then some v else none
  | none => none

-- ── Pure streaming helpers (src/unnamed/part_001) ────────────────────

/-- `parseTtsWsEventPayload(value)`: non-strings give `null`; strings
are fed to `JSON.parse`, whose failure is caught and returned as
`null`. -/
def parseTtsWsEventPayload (value : JSVal) : JSVal :=
  match value with
  | .str s =>
      match jsonParse s with
      | some payload => payload
      | none => .null
  | _ => .null

/-- `parseSttWsEventPayload(value)`: same shape as the TTS variant. -/
def parseSttWsEventPayload (value : JSVal) : JSVal :=
  match value with
  | .str s =>
      match jsonParse s with
      | some payload => payload
      | none => .null
  | _ => .null


/-- `shouldAcceptAudioSeq(incomingSeq, highestSeqSeen)`: accept an
incoming TTS audio chunk exactly when its seq is strictly above the
high-water mark. -/
def shouldAcceptAudioSeq (incomingSeq highestSeqSeen : Int) : Bool :=
  incomingSeq > highestSeqSeen

/-- `shouldFallbackToSse(error)`: an object carrying a `retryable` field
answers `Boolean(retryable)`; everything else answers true. -/
def shouldFallbackToSse (error : JSVal) : Bool :=
  if error.isObj ∧ jsHasField error "retryable" then
    ((jsGetField error "retryable").getD .undef).truthy
  else
    true

/-- `TTS_WS_RETRY_DELAYS_MS`: the fixed reconnect backoff ladder. -/
def TTS_WS_RETRY_DELAYS_MS : List Nat := [250, 750, 1500]

/-- JS string-or-default `x || d` for an optionally-present string-typed
field: absent and empty (falsy) strings both give the default. -/
def jsOrDefault (x : Option String) (d : String) : String :=
  match x with
  | some s => if s = "" then d else s
  | none => d

-- ── Playback generation counter (src/unnamed/part_001) ───────────────

/-- The module-level playback state: the global generation counter plus
the registry of active audio elements (identified abstractly). -/
structure PlaybackState where
  generation : Nat
  activeElements : List Nat

/-- `wasPlaybackStoppedAfter(generationAtStart)`: a task is stale when
the global counter no longer equals its snapshot. -/
def wasPlaybackStoppedAfter (generationAtStart : Nat) (st : PlaybackState) : Bool :=
  st.generation != generationAtStart

/-- `getAudioPlaybackGeneration()`. -/
def getAudioPlaybackGeneration (st : PlaybackState) : Nat :=
  st.generation

/-- `stopActiveAudioPlayback()`: bumps the generation counter, then
pauses/unbinds every registered element (an effect on the media elements
themselves; the registry contents are untouched by this call). -/
def stopActiveAudioPlayback (st : PlaybackState) : PlaybackState :=
  { st with generation := st.generation + 1 }

/-- JS `String.prototype.trim()`: strip leading and trailing
whitespace. -/
def jsTrim (s : String) : String :=
  String.mk (((s.data.dropWhile Char.isWhitespace).reverse.dropWhile
    Char.isWhitespace).reverse)

-- ── STT WebSocket session (src/unnamed/part_001) ─────────────────────

/-- The `SttWsEventPayload` interface: all fields optional; a field that
is absent or carries a value of the wrong runtime type is `none` (the
handlers guard every typed access with a `typeof` test). -/
structure SttWsEventPayload where
  type : Option String := none
  session_id : Option String := none
  seq : Option Int := none
  text : Option String := none
  error : Option String := none
  retryable : Option Bool := none

/-- An error object built by `buildError(message, retryable)`. -/
structure SttErr where
  message : String
  retryable : Bool
deriving DecidableEq

/-- The value the STT done promise resolves with. -/
structure SttWsResult where
  text : String
  session_id : String
deriving DecidableEq

/-- Mutable state of one `startSttWebSocketStream` session, restricted
to the pieces the completion logic reads and writes.  `outcome` is the
settlement of the done promise (`none` while unsettled); `startSettled`
records whether the start promise was resolved. -/
structure SttSessionState where
  finalText : String
  finalSessionId : String
  settled : Bool
  startSettled : Bool
  outcome : Option (Except SttErr SttWsResult)

/-- Session state right after construction, from `config.sessionId`:
`finalSessionId = config.sessionId || ""`. -/
def sttInitState (configSessionId : Option String) : SttSessionState :=
  { finalText := ""
    finalSessionId := jsOrDefault configSessionId ""
    settled := false
    startSettled := false
    outcome := none }

/-- `rejectAll(error)`: settle both promises with the error unless
already settled. -/
def sttRejectAll (st : SttSessionState) (e : SttErr) : SttSessionState :=
  if st.settled then st
  else { st with settled := true, startSettled := true, outcome := some (.error e) }

/-- `resolveDoneIfPossible()`: resolve with the trimmed final text and
session id, but only when both are non-empty (text after trimming). -/
def sttResolveDoneIfPossible (st : SttSessionState) : SttSessionState :=
  if st.settled then st
  else if jsTrim st.finalText = "" ∨ st.finalSessionId = "" then st
  else
    { st with
        settled := true
        startSettled := true
        outcome := some (.ok ⟨jsTrim st.finalText, st.finalSessionId⟩) }

/-- The `socket.onmessage` handler (a payload that fails to parse is
dropped before reaching these branches). -/
def sttHandleMessage (st : SttSessionState) (p : SttWsEventPayload) : SttSessionState :=
  if p.type = some "start_ack" ∧ p.session_id.isSome then
    { st with finalSessionId := p.session_id.getD "", startSettled := true }
  else if p.type = some "partial" ∧ p.text.isSome then
    st
  else if p.type = some "final" ∧ p.text.isSome then
    let st1 := { st with finalText := p.text.getD "" }
    match p.session_id with
    | some sid => { st1 with finalSessionId := sid }
    | none => st1
  else if p.type = some "done" then
    sttResolveDoneIfPossible st
  else if p.type = some "error" then
    sttRejectAll st ⟨jsOrDefault p.error "stt_ws_error", p.retryable ≠ some false⟩
  else st

/-- The `socket.onerror` handler. -/
def sttHandleTransportError (st : SttSessionState) : SttSessionState :=
  sttRejectAll st ⟨"stt_ws_transport_error", true⟩

/-- The `socket.onclose` handler. -/
def sttHandleClose (st : SttSessionState) : SttSessionState :=
  if st.settled then st
  else if st.finalText ≠ "" ∧ st.finalSessionId ≠ "" then
    sttResolveDoneIfPossible st
  else
    sttRejectAll st ⟨"stt_ws_closed_before_done", true⟩

/-- Run an STT session over a list of incoming server messages followed
by the socket close. -/
def sttSessionRun (configSessionId : Option String)
    (msgs : List SttWsEventPayload) : SttSessionState :=
  sttHandleClose (msgs.foldl sttHandleMessage (sttInitState configSessionId))

-- ── TTS WebSocket session (src/unnamed/part_001) ─────────────────────

/-- The `TtsWsEventPayload` interface, with the same optional-field
convention as the STT payload. -/
structure TtsWsEventPayload where
  type : Option String := none
  request_id : Option String := none
  seq : Option Int := none
  audio : Option String := none
  format : Option String := none
  mime_type : Option String := none
  sample_rate : Option Int := none
  error : Option String := none
  retryable : Option Bool := none
  last_seq : Option Int := none

/-- An error object built by `buildError(message, retryable)` in the TTS
paths. -/
structure TtsErr where
  message : String
  retryable : Bool
deriving DecidableEq

/-- State of one `connectOnce` attempt inside `collectTtsViaWebSocket`.
`chunks` holds the accepted audio payloads (their base64 text; byte
decoding is orthogonal to sequencing), `acks` the `last_seq` values of
the `ack` messages sent back, and `acceptedSeqs` is a history variable
recording the seq of each accepted chunk in order — it is not part of
the source state and is read only by the specification. -/
structure TtsConnState where
  chunks : List String
  mimeType : String
  sampleRate : Int
  highestSeqSeen : Int
  done : Bool
  finalError : Option TtsErr
  acks : List Int
  acceptedSeqs : List Int

/-- Connection state at the top of `collectTtsViaWebSocket` (the
`highestSeqSeen` survives across reconnect attempts). -/
def ttsConnInit : TtsConnState :=
  { chunks := []
    mimeType := "audio/mpeg"
    sampleRate := 16000
    highestSeqSeen := 0
    done := false
    finalError := none
    acks := []
    acceptedSeqs := [] }

/-- The TTS `socket.onmessage` handler. -/
def ttsHandleMessage (st : TtsConnState) (p : TtsWsEventPayload) : TtsConnState :=
  if p.type = some "audio" ∧ p.audio.isSome then
    let seq := p.seq.getD 0
    let st1 :=
      if shouldAcceptAudioSeq seq st.highestSeqSeen then
        { st with
            chunks := st.chunks ++ [p.audio.getD ""]
            highestSeqSeen := seq
            acceptedSeqs := st.acceptedSeqs ++ [seq]
            mimeType :=
              match p.mime_type with
              | some m => if m = "" then st.mimeType else m
              | none => st.mimeType
            sampleRate :=
              match p.sample_rate with
              | some r => r
              | none => st.sampleRate }
      else st
    { st1 with acks := st1.acks ++ [st1.highestSeqSeen] }
  else if p.type = some "done" then
    let streamLastSeq := p.last_seq.getD st.highestSeqSeen
    if streamLastSeq > st.highestSeqSeen then
      { st with finalError := some ⟨"tts_ws_sequence_gap", true⟩, done := false }
    else
      { st with done := true }
  else if p.type = some "error" then
    { st with
        finalError := some ⟨jsOrDefault p.error "tts_ws_error", p.retryable ≠ some false⟩
        done := false }
  else st

/-- The `socket.onclose` handler of one attempt: the attempt promise
resolves only when a clean `done` was recorded. -/
def ttsHandleClose (stopped : Bool) (st : TtsConnState) : Except TtsErr Unit :=
  if stopped then .error ⟨"stream_stopped", false⟩
  else if st.done then .ok ()
  else .error (st.finalError.getD ⟨"tts_ws_closed_before_done", true⟩)

/-- Run one TTS connection over a list of incoming messages. -/
def ttsConnRun (st : TtsConnState) (msgs : List TtsWsEventPayload) : TtsConnState :=
  msgs.foldl ttsHandleMessage st

/-- The JS error object corresponding to a `buildError` value, as seen
by `shouldFallbackToSse`. -/
def ttsErrToJs (e : TtsErr) : JSVal :=
  .obj [("message", .str e.message), ("retryable", .bool e.retryable)]

/-- The retry loop of `collectTtsViaWebSocket`, with `attemptOutcome n`
the result of the `connectOnce()` of attempt `n`.  Returns the backoff
delays slept (in order) and the propagated outcome.  The first argument
counts the loop iterations still allowed (`attempt <= delays.length`). -/
def ttsRetryAux {α : Type} (attemptOutcome : Nat → Except TtsErr α) :
    Nat → Nat → List Nat × Except TtsErr α
  | 0, _ => ([], .error ⟨"tts_ws_exhausted", true⟩)
  | remaining + 1, attempt =>
      let slept : List Nat :=
        if attempt = 0 then [] else [TTS_WS_RETRY_DELAYS_MS.getD (attempt - 1) 0]
      match attemptOutcome attempt with
      | .ok r => (slept, .ok r)
      | .error e =>
          if shouldFallbackToSse (ttsErrToJs e) = false
              ∨ attempt = TTS_WS_RETRY_DELAYS_MS.length then
            (slept, .error e)
          else
            let rest := ttsRetryAux attemptOutcome remaining (attempt + 1)
            (slept ++ rest.1, rest.2)

/-- `collectTtsViaWebSocket`'s attempt loop: initial attempt plus one
retry per ladder entry. -/
def ttsRetryLoop {α : Type} (attemptOutcome : Nat → Except TtsErr α) :
    List Nat × Except TtsErr α :=
  ttsRetryAux attemptOutcome (TTS_WS_RETRY_DELAYS_MS.length + 1) 0

-- ── Pending agent resume state (src/unnamed/part_005) ────────────────

/-- `RESUME_TTL_MS`: time-to-live of a persisted resume record. -/
def RESUME_TTL_MS : Int := 60000

/-- `getPendingAgentResume()`, as a function of the stored string and
the current clock.  Returns the loaded value (the unvalidated result of
`JSON.parse`) together with the storage contents after the call; the
stale check is the JS comparison `Date.now() - parsed.savedAt >
RESUME_TTL_MS`, which is false whenever `savedAt` is not a number. -/
def getPendingAgentResume (stored : Option String) (now : Int) :
    Option JSVal × Option String :=
  match stored with
  | none => (none, none)
  | some raw =>
      match jsonParse raw with
      | none => (none, none)
      | some parsed =>
          if jsSubGt now (jsGetField parsed "savedAt") RESUME_TTL_MS then
            (none, none)
          else
            (some parsed, some raw)

-- ── Agent resume result synthesis (src/unnamed/part_001) ─────────────

/-- One tool result `{call_id, result}`. -/
structure ToolResult where
  call_id : String
  result : String
deriving DecidableEq

/-- One tool call `{call_id, tool, args}` produced by the agent. -/
structure AgentToolCallInfo where
  call_id : String
  tool : String
  args : List (String × JSVal) := []

/-- The synthesized result for a pending call that has no completed
result: navigation gets a success message embedding the current page
URL and the fresh page context; every other tool gets the
could-not-execute placeholder. -/
def synthResumeResult (tc : AgentToolCallInfo) (href pageContext : String) : ToolResult :=
  if tc.tool = "navigate" then
    { call_id := tc.call_id
      result := "Navigasyon tamamlandı. Şu anki sayfa: " ++ href ++
        "\nSayfa bağlamı: " ++ pageContext }
  else
    { call_id := tc.call_id
      result := "Sayfa yeniden yüklendi, bu araç çalıştırılamadı." }

/-- One iteration of the `allResults` loop of `agentResumeStream`: a
pending call whose id already has a result is skipped, otherwise its
synthesized result is pushed. -/
def resumeStep (href pageContext : String) (allResults : List ToolResult)
    (tc : AgentToolCallInfo) : List ToolResult :=
  if allResults.any (fun r => r.call_id = tc.call_id) then allResults
  else allResults ++ [synthResumeResult tc href pageContext]

/-- The `allResults` computation at the top of `agentResumeStream`:
start from the completed results and walk the pending calls in
order. -/
def buildResumeResults (completedResults : List ToolResult)
    (pendingToolCalls : List AgentToolCallInfo) (href pageContext : String) :
    List ToolResult :=
  pendingToolCalls.foldl (resumeStep href pageContext) completedResults

-- ── Agent WebSocket session (src/unnamed/part_001) ───────────────────

/-- Incoming events of one agent WebSocket, as dispatched on
`data.type`; optional arguments model the `typeof` guards, `malformed`
a frame whose JSON parse failed, and `transportError` the `onerror`
callback.  The trailing `onclose` is applied by the runner. -/
inductive AgentWsEvent where
  | session (sessionId : Option String)
  | iteration (it maxIt : Int)
  | replyDelta (delta : Option String)
  | toolCalls (calls : List AgentToolCallInfo)
  | agentDone (finalReply : Option String) (sessionId : Option String)
  | errorMsg (error : Option String)
  | transportError
  | malformed

/-- State of the inner agent promise (`new Promise<string>`), together
with the observable callback traffic the claims talk about.  `settle`
is the first `agentResolve`/`agentReject` (guarded by `resolved`);
`onErrorCalls` lists the arguments of every `events.onError` call made
by the WS handlers; `errorEmitted` is the flag the outer catch block
consults. -/
structure AgentInnerState where
  finalReply : String
  resolved : Bool
  settle : Option (Except String String)
  errorEmitted : Bool
  onErrorCalls : List String
  accumulatedDelta : String
  intermediateReplies : List String
  sentToolResults : List (List ToolResult)
  sessionId : String

/-- Inner state at socket creation. -/
def agentInnerInit (sessionId : String) : AgentInnerState :=
  { finalReply := ""
    resolved := false
    settle := none
    errorEmitted := false
    onErrorCalls := []
    accumulatedDelta := ""
    intermediateReplies := []
    sentToolResults := []
    sessionId := sessionId }

/-- `finish(reply)`: resolve the inner promise once. -/
def agentFinish (st : AgentInnerState) (reply : String) : AgentInnerState :=
  if st.resolved then st
  else { st with resolved := true, settle := some (.ok reply) }

/-- `fail(error)`: reject the inner promise once. -/
def agentFail (st : AgentInnerState) (e : String) : AgentInnerState :=
  if st.resolved then st
  else { st with resolved := true, settle := some (.error e) }

/-- One step of the agent `socket.onmessage`/`onerror` handlers.
`executeTool` is the externally supplied tool executor;
`transportErrorMsg` is the message used by the `onerror` handler (it
differs between the voice and the text/resume variants).  The
resume-state persistence around a navigate call is an effect on storage
modelled separately (`getPendingAgentResume`). -/
def agentHandleEvent (transportErrorMsg : String)
    (executeTool : AgentToolCallInfo → ToolResult)
    (st : AgentInnerState) (ev : AgentWsEvent) : AgentInnerState :=
  match ev with
  | .session sid =>
      match sid with
      | some s => { st with sessionId := s }
      | none => st
  | .iteration _ _ => st
  | .replyDelta d =>
      match d with
      | some s => { st with accumulatedDelta := st.accumulatedDelta ++ s }
      | none => st
  | .toolCalls calls =>
      let st1 :=
        if jsTrim st.accumulatedDelta ≠ "" then
          { st with intermediateReplies :=
              st.intermediateReplies ++ [jsTrim st.accumulatedDelta] }
        else st
      let st2 := { st1 with accumulatedDelta := "" }
      let results := calls.map executeTool
      { st2 with sentToolResults := st2.sentToolResults ++ [results] }
  | .agentDone r _sid =>
      let reply := jsOrDefault r ""
      agentFinish { st with finalReply := reply } reply
  | .errorMsg e =>
      let m := jsOrDefault e "Agent error"
      agentFail
        { st with errorEmitted := true, onErrorCalls := st.onErrorCalls ++ [m] } m
  | .transportError =>
      agentFail
        { st with
            errorEmitted := true
            onErrorCalls := st.onErrorCalls ++ [transportErrorMsg] }
        transportErrorMsg
  | .malformed => st

/-- Run the inner agent promise over the incoming events; the socket
close at the end runs `finish(finalReply)`. -/
def agentInnerRun (transportErrorMsg : String)
    (executeTool : AgentToolCallInfo → ToolResult)
    (init : AgentInnerState) (events : List AgentWsEvent) : AgentInnerState :=
  let st := events.foldl (agentHandleEvent transportErrorMsg executeTool) init
  agentFinish st st.finalReply

/-- Observable outcome of one run of a stream's `donePromise` executor:
the `resolve`/`reject` calls it performs, the `events.onError` calls of
the WS handlers, the `events.onError` call of the outer catch block (if
any), and the final `errorEmitted` flag. -/
structure OuterReport where
  settlements : List (Except String Unit)
  onErrorCallsInner : List String
  catchOnError : Option String
  errorEmitted : Bool

/-- The playback tail shared by the three stream variants: play the
collected chunks if non-empty and not stopped, then resolve; a playback
error reaches the outer catch. -/
def agentPlayPhase (inner : AgentInnerState) (s3 : Bool) (chunks : List String)
    (playback : Except String Unit) : OuterReport :=
  if ¬ s3 ∧ chunks ≠ [] then
    match playback with
    | .ok () => ⟨[.ok ()], inner.onErrorCalls, none, inner.errorEmitted⟩
    | .error e3 =>
        ⟨[.error e3], inner.onErrorCalls,
          if inner.errorEmitted then none else some e3, inner.errorEmitted⟩
  else ⟨[.ok ()], inner.onErrorCalls, none, inner.errorEmitted⟩

/-- The body of the `donePromise` executor shared by the text, voice
(after its STT phase) and resume variants: run the agent loop, then TTS
over WebSocket with SSE fallback, then playback; any thrown error is
caught once, reported through `onError` only if `errorEmitted` is still
false, and rejects the promise.  `s0 s1 s2 s3` are the values of the
`isStopped` flag at the successive suspension points; `ttsWs`, `ttsSse`
and `playback` are the outcomes of the corresponding awaited phases. -/
def agentOuterCore (transportErrorMsg : String)
    (executeTool : AgentToolCallInfo → ToolResult) (initSessionId : String)
    (s0 s1 s2 s3 : Bool) (events : List AgentWsEvent)
    (ttsWs : Except TtsErr (List String)) (ttsSse : Except String (List String))
    (playback : Except String Unit) : OuterReport :=
  if s0 then ⟨[.ok ()], [], none, false⟩
  else
    let inner :=
      agentInnerRun transportErrorMsg executeTool (agentInnerInit initSessionId) events
    match inner.settle.getD (.ok inner.finalReply) with
    | .error e =>
        ⟨[.error e], inner.onErrorCalls,
          if inner.errorEmitted then none else some e, inner.errorEmitted⟩
    | .ok assistantText =>
        if s1 ∨ assistantText = "" then
          ⟨[.ok ()], inner.onErrorCalls, none, inner.errorEmitted⟩
        else
          match ttsWs with
          | .ok chunks => agentPlayPhase inner s3 chunks playback
          | .error _ =>
              if s2 then ⟨[.ok ()], inner.onErrorCalls, none, inner.errorEmitted⟩
              else
                match ttsSse with
                | .ok chunks => agentPlayPhase inner s3 chunks playback
                | .error e2 =>
                    ⟨[.error e2], inner.onErrorCalls,
                      if inner.errorEmitted then none else some e2,
                      inner.errorEmitted⟩

/-- `agentTextChatStream`'s done promise (`effectiveSessionId` starts
as `sessionId || ""`). -/
def agentTextChatRun (executeTool : AgentToolCallInfo → ToolResult)
    (sessionId : Option String) (s0 s1 s2 s3 : Bool)
    (events : List AgentWsEvent) (ttsWs : Except TtsErr (List String))
    (ttsSse : Except String (List String)) (playback : Except String Unit) :
    OuterReport :=
  agentOuterCore "Agent WebSocket error" executeTool (jsOrDefault sessionId "")
    s0 s1 s2 s3 events ttsWs ttsSse playback

/-- `agentVoiceChatStream`'s done promise: an STT phase precedes the
shared core; an STT failure reaches the catch block with `errorEmitted`
still false. -/
def agentVoiceChatRun (executeTool : AgentToolCallInfo → ToolResult)
    (sv0 : Bool) (stt : Except String SttWsResult) (s0 s1 s2 s3 : Bool)
    (events : List AgentWsEvent) (ttsWs : Except TtsErr (List String))
    (ttsSse : Except String (List String)) (playback : Except String Unit) :
    OuterReport :=
  if sv0 then ⟨[.ok ()], [], none, false⟩
  else
    match stt with
    | .error e => ⟨[.error e], [], some e, false⟩
    | .ok r =>
        agentOuterCore "Agent WebSocket connection error" executeTool r.session_id
          s0 s1 s2 s3 events ttsWs ttsSse playback

/-- `agentResumeStream`'s done promise (session id from the persisted
resume state). -/
def agentResumeRun (executeTool : AgentToolCallInfo → ToolResult)
    (resumeSessionId : String) (s0 s1 s2 s3 : Bool)
    (events : List AgentWsEvent) (ttsWs : Except TtsErr (List String))
    (ttsSse : Except String (List String)) (playback : Except String Unit) :
    OuterReport :=
  agentOuterCore "Agent WebSocket error" executeTool resumeSessionId
    s0 s1 s2 s3 events ttsWs ttsSse playback

-- ── Helper lemmas ────────────────────────────────────────────────────

/-- A `buildError` object answers its own `retryable` flag to
`shouldFallbackToSse`. -/
lemma shouldFallbackToSse_ttsErrToJs (e : TtsErr) :
    shouldFallbackToSse (ttsErrToJs e) = e.retryable := by
  cases e
  rfl

/-- Effect of an accepted audio message (seq above the high-water
mark): the chunk is buffered, the mark moves to the chunk's seq, and
the ack reflects the new mark. -/
lemma ttsHandleMessage_audio_accept (st : TtsConnState) (p : TtsWsEventPayload)
    (h1 : p.type = some "audio" ∧ p.audio.isSome = true)
    (hacc : p.seq.getD 0 > st.highestSeqSeen) :
    (ttsHandleMessage st p).chunks = st.chunks ++ [p.audio.getD ""] ∧
    (ttsHandleMessage st p).highestSeqSeen = p.seq.getD 0 ∧
    (ttsHandleMessage st p).acceptedSeqs = st.acceptedSeqs ++ [p.seq.getD 0] ∧
    (ttsHandleMessage st p).acks = st.acks ++ [p.seq.getD 0] := by
  rw [ttsHandleMessage, if_pos (by simpa using h1)]
  have : shouldAcceptAudioSeq (p.seq.getD 0) st.highestSeqSeen = true := by
    simpa [shouldAcceptAudioSeq] using hacc
  simp [this]

/-- Effect of a duplicate/stale audio message (seq at or below the
high-water mark): nothing is buffered, the mark is unchanged, and the
ack repeats the current mark. -/
lemma ttsHandleMessage_audio_dup (st : TtsConnState) (p : TtsWsEventPayload)
    (h1 : p.type = some "audio" ∧ p.audio.isSome = true)
    (hle : p.seq.getD 0 ≤ st.highestSeqSeen) :
    (ttsHandleMessage st p).chunks = st.chunks ∧
    (ttsHandleMessage st p).highestSeqSeen = st.highestSeqSeen ∧
    (ttsHandleMessage st p).acceptedSeqs = st.acceptedSeqs ∧
    (ttsHandleMessage st p).acks = st.acks ++ [st.highestSeqSeen] := by
  rw [ttsHandleMessage, if_pos (by simpa using h1)]
  have : shouldAcceptAudioSeq (p.seq.getD 0) st.highestSeqSeen = false := by
    simpa [shouldAcceptAudioSeq] using not_lt.mpr hle
  simp [this]

/-- Non-audio messages leave the chunk buffer, the high-water mark and
the accepted-seq history unchanged. -/
lemma ttsHandleMessage_nonaudio (st : TtsConnState) (p : TtsWsEventPayload)
    (h1 : ¬ (p.type = some "audio" ∧ p.audio.isSome = true)) :
    (ttsHandleMessage st p).chunks = st.chunks ∧
    (ttsHandleMessage st p).highestSeqSeen = st.highestSeqSeen ∧
    (ttsHandleMessage st p).acceptedSeqs = st.acceptedSeqs := by
  rw [ttsHandleMessage, if_neg (by simpa using h1)]
  by_cases h2 : p.type = some "done"
  · rw [if_pos h2]
    dsimp only
    split_ifs <;> exact ⟨rfl, rfl, rfl⟩
  · rw [if_neg h2]
    split_ifs <;> exact ⟨rfl, rfl, rfl⟩

/-- Invariant of one TTS connection: the accepted seqs are strictly
increasing and all lie at or below the current high-water mark. -/
def TtsSeqInv (st : TtsConnState) : Prop :=
  List.Chain' (· < ·) st.acceptedSeqs ∧ ∀ x ∈ st.acceptedSeqs, x ≤ st.highestSeqSeen

lemma ttsSeqInv_init : TtsSeqInv ttsConnInit := by
  constructor <;> simp [ttsConnInit]

lemma ttsHandleMessage_seqInv (st : TtsConnState) (p : TtsWsEventPayload)
    (h : TtsSeqInv st) : TtsSeqInv (ttsHandleMessage st p) := by
  obtain ⟨hchain, hbound⟩ := h
  by_cases h1 : p.type = some "audio" ∧ p.audio.isSome = true
  · by_cases hacc : p.seq.getD 0 > st.highestSeqSeen
    · obtain ⟨-, hh, ha, -⟩ := ttsHandleMessage_audio_accept st p h1 hacc
      constructor
      · rw [ha, List.chain'_append]
        refine ⟨hchain, List.chain'_singleton _, ?_⟩
        intro x hx y hy
        simp only [List.head?_cons, Option.mem_def, Option.some.injEq] at hy
        subst hy
        have hxmem : x ∈ st.acceptedSeqs := List.mem_of_mem_getLast? hx
        exact lt_of_le_of_lt (hbound x hxmem) hacc
      · intro x hx
        rw [ha] at hx
        rw [hh]
        rcases List.mem_append.mp hx with hx | hx
        · exact le_trans (hbound x hx) (le_of_lt hacc)
        · simp only [List.mem_singleton] at hx
          subst hx
          exact le_refl _
    · obtain ⟨-, hh, ha, -⟩ := ttsHandleMessage_audio_dup st p h1 (not_lt.mp hacc)
      rw [TtsSeqInv, hh, ha]
      exact ⟨hchain, hbound⟩
  · obtain ⟨-, hh, ha⟩ := ttsHandleMessage_nonaudio st p h1
    rw [TtsSeqInv, hh, ha]
    exact ⟨hchain, hbound⟩

lemma ttsConnRun_seqInv (st : TtsConnState) (msgs : List TtsWsEventPayload)
    (h : TtsSeqInv st) : TtsSeqInv (ttsConnRun st msgs) := by
  induction msgs generalizing st with
  | nil => simpa [ttsConnRun] using h
  | cons m ms ih =>
      rw [ttsConnRun, List.foldl_cons]
      exact ih _ (ttsHandleMessage_seqInv _ _ h)

/-- `finish` only settles; it does not touch the error-reporting
fields. -/
lemma agentFinish_fields (st : AgentInnerState) (r : String) :
    (agentFinish st r).errorEmitted = st.errorEmitted ∧
    (agentFinish st r).onErrorCalls = st.onErrorCalls := by
  unfold agentFinish
  split_ifs <;> exact ⟨rfl, rfl⟩

/-- Every handler sets `errorEmitted` exactly when it emits an
`onError` call, so the flag tracks non-emptiness of the call list. -/
lemma agentHandleEvent_errFlag (tm : String) (f : AgentToolCallInfo → ToolResult)
    (st : AgentInnerState) (ev : AgentWsEvent)
    (h : st.errorEmitted = true ↔ st.onErrorCalls ≠ []) :
    (agentHandleEvent tm f st ev).errorEmitted = true
      ↔ (agentHandleEvent tm f st ev).onErrorCalls ≠ [] := by
  cases ev with
  | session sid => cases sid <;> simpa [agentHandleEvent] using h
  | iteration i m => simpa [agentHandleEvent] using h
  | replyDelta d => cases d <;> simpa [agentHandleEvent] using h
  | toolCalls calls =>
      simp only [agentHandleEvent]
      split_ifs <;> simpa using h
  | agentDone r sid =>
      simp only [agentHandleEvent, agentFinish]
      split_ifs <;> simpa using h
  | errorMsg e =>
      simp only [agentHandleEvent, agentFail]
      split_ifs <;> simp
  | transportError =>
      simp only [agentHandleEvent, agentFail]
      split_ifs <;> simp
  | malformed => simpa [agentHandleEvent] using h

lemma agentFold_errFlag (tm : String) (f : AgentToolCallInfo → ToolResult) :
    ∀ (events : List AgentWsEvent) (st : AgentInnerState),
      (st.errorEmitted = true ↔ st.onErrorCalls ≠ []) →
      ((events.foldl (agentHandleEvent tm f) st).errorEmitted = true
        ↔ (events.foldl (agentHandleEvent tm f) st).onErrorCalls ≠ []) := by
  intro events
  induction events with
  | nil => intro st h; simpa using h
  | cons ev rest ih =>
      intro st h
      rw [List.foldl_cons]
      exact ih _ (agentHandleEvent_errFlag tm f st ev h)

lemma agentInnerRun_errFlag (tm : String) (f : AgentToolCallInfo → ToolResult)
    (sid : String) (events : List AgentWsEvent) :
    (agentInnerRun tm f (agentInnerInit sid) events).errorEmitted = true
      ↔ (agentInnerRun tm f (agentInnerInit sid) events).onErrorCalls ≠ [] := by
  rw [agentInnerRun]
  obtain ⟨h1, h2⟩ := agentFinish_fields
    (events.foldl (agentHandleEvent tm f) (agentInnerInit sid))
    (events.foldl (agentHandleEvent tm f) (agentInnerInit sid)).finalReply
  rw [h1, h2]
  exact agentFold_errFlag tm f events (agentInnerInit sid) (by simp [agentInnerInit])

/-- The shared playback tail settles once, and reports through the
catch block only if nothing was reported before. -/
lemma agentPlayPhase_spec (inner : AgentInnerState) (s3 : Bool)
    (chunks : List String) (playback : Except String Unit)
    (hflag : inner.errorEmitted = true ↔ inner.onErrorCalls ≠ []) :
    (agentPlayPhase inner s3 chunks playback).settlements.length = 1 ∧
    ((agentPlayPhase inner s3 chunks playback).onErrorCallsInner ≠ [] →
      (agentPlayPhase inner s3 chunks playback).catchOnError = none) := by
  unfold agentPlayPhase
  cases playback with
  | ok u =>
      cases u
      split_ifs <;> exact ⟨rfl, fun _ => rfl⟩
  | error e3 =>
      split_ifs with h1 h2
      · exact ⟨rfl, fun _ => rfl⟩
      · refine ⟨rfl, ?_⟩
        intro hne
        exact absurd (hflag.mpr hne) h2
      · exact ⟨rfl, fun _ => rfl⟩

/-- The shared executor body settles once and never double-reports. -/
lemma agentOuterCore_spec (tm : String) (f : AgentToolCallInfo → ToolResult)
    (isid : String) (s0 s1 s2 s3 : Bool) (events : List AgentWsEvent)
    (ttsWs : Except TtsErr (List String)) (ttsSse : Except String (List String))
    (playback : Except String Unit) :
    (agentOuterCore tm f isid s0 s1 s2 s3 events ttsWs ttsSse playback).settlements.length
      = 1 ∧
    ((agentOuterCore tm f isid s0 s1 s2 s3 events ttsWs ttsSse
        playback).onErrorCallsInner ≠ [] →
      (agentOuterCore tm f isid s0 s1 s2 s3 events ttsWs ttsSse
        playback).catchOnError = none) := by
  have hflag := agentInnerRun_errFlag tm f isid events
  unfold agentOuterCore
  by_cases hs0 : s0 = true
  · simp [hs0]
  · simp only [hs0, if_false, Bool.false_eq_true]
    cases hsettle : (agentInnerRun tm f (agentInnerInit isid) events).settle.getD
        (.ok (agentInnerRun tm f (agentInnerInit isid) events).finalReply) with
    | error e =>
        dsimp only
        refine ⟨rfl, ?_⟩
        intro hne
        have hemit := hflag.mpr hne
        simp [hemit]
    | ok assistantText =>
        dsimp only
        by_cases h1 : s1 = true ∨ assistantText = ""
        · rw [if_pos h1]
          exact ⟨rfl, fun _ => rfl⟩
        · rw [if_neg h1]
          cases ttsWs with
          | ok chunks => exact agentPlayPhase_spec _ s3 chunks playback hflag
          | error we =>
              dsimp only
              by_cases h2 : s2 = true
              · rw [if_pos h2]
                exact ⟨rfl, fun _ => rfl⟩
              · rw [if_neg h2]
                cases ttsSse with
                | ok chunks => exact agentPlayPhase_spec _ s3 chunks playback hflag
                | error e2 =>
                    dsimp only
                    refine ⟨rfl, ?_⟩
                    intro hne
                    have hemit := hflag.mpr hne
                    simp [hemit]

-- ── Claim theorems ───────────────────────────────────────────────────

/-- Both branches of the synthesized result carry the pending call's
id. -/
lemma synthResumeResult_call_id (tc : AgentToolCallInfo) (href ctx : String) :
    (synthResumeResult tc href ctx).call_id = tc.call_id := by
  unfold synthResumeResult
  split_ifs <;> rfl

/-- The resume fold only appends to its accumulator. -/
lemma resumeFold_extends (href ctx : String) (pending : List AgentToolCallInfo) :
    ∀ acc : List ToolResult,
      ∃ ext, pending.foldl (resumeStep href ctx) acc = acc ++ ext := by
  induction pending with
  | nil => exact fun acc => ⟨[], by simp⟩
  | cons tc rest ih =>
      intro acc
      rw [List.foldl_cons]
      obtain ⟨ext, hext⟩ := ih (resumeStep href ctx acc tc)
      rw [hext]
      unfold resumeStep
      split_ifs
      · exact ⟨ext, rfl⟩
      · exact ⟨[synthResumeResult tc href ctx] ++ ext, by simp⟩

/-- Pending calls never synthesize a result under a call id that is not
theirs. -/
lemma resumeFold_filter_not_mem (href ctx : String)
    (pending : List AgentToolCallInfo) :
    ∀ (acc : List ToolResult) (cid : String),
      cid ∉ pending.map (fun tc => tc.call_id) →
      (pending.foldl (resumeStep href ctx) acc).filter (fun r => r.call_id = cid)
        = acc.filter (fun r => r.call_id = cid) := by
  induction pending with
  | nil => intro acc cid h; rfl
  | cons tc rest ih =>
      intro acc cid h
      simp only [List.map_cons, List.mem_cons, not_or] at h
      obtain ⟨hne, hnotin⟩ := h
      rw [List.foldl_cons, ih _ cid hnotin]
      unfold resumeStep
      split_ifs
      · rfl
      · rw [List.filter_append]
        have hne2 : tc.call_id ≠ cid := fun he => hne he.symm
        have hsingle :
            [synthResumeResult tc href ctx].filter (fun r => r.call_id = cid) = [] := by
          simp [List.filter, synthResumeResult_call_id, hne2]
        rw [hsingle, List.append_nil]

/-- Core characterization: for a pending call whose id occurs once in
the pending list, the fold's results under that id are the
accumulator's ones, plus the synthesized result exactly when the
accumulator had none. -/
lemma resumeFold_filter_mem (href ctx : String)
    (pending : List AgentToolCallInfo) :
    ∀ (acc : List ToolResult) (tc : AgentToolCallInfo), tc ∈ pending →
      (pending.map (fun tc => tc.call_id)).Nodup →
      (pending.foldl (resumeStep href ctx) acc).filter
          (fun r => r.call_id = tc.call_id)
        = acc.filter (fun r => r.call_id = tc.call_id) ++
          (if acc.any (fun r => r.call_id = tc.call_id) then []
            else [synthResumeResult tc href ctx]) := by
  induction pending with
  | nil => intro acc tc h; simp at h
  | cons tc0 rest ih =>
      intro acc tc hmem hnd
      simp only [List.map_cons, List.nodup_cons] at hnd
      obtain ⟨h0notin, hndrest⟩ := hnd
      rw [List.foldl_cons]
      rcases List.mem_cons.mp hmem with rfl | hmemrest
      · rw [resumeFold_filter_not_mem href ctx rest _ _ h0notin]
        unfold resumeStep
        by_cases hany : acc.any (fun r => r.call_id = tc.call_id)
        · rw [if_pos hany, if_pos hany, List.append_nil]
        · rw [if_neg hany, if_neg hany, List.filter_append]
          congr 1
          simp [List.filter, synthResumeResult_call_id]
      · have hne : tc0.call_id ≠ tc.call_id := by
          intro he
          exact h0notin (he ▸ List.mem_map.mpr ⟨tc, hmemrest, rfl⟩)
        have hstep_filter :
            (resumeStep href ctx acc tc0).filter (fun r => r.call_id = tc.call_id)
              = acc.filter (fun r => r.call_id = tc.call_id) := by
          unfold resumeStep
          split_ifs
          · rfl
          · rw [List.filter_append]
            have hsingle : [synthResumeResult tc0 href ctx].filter
                (fun r => r.call_id = tc.call_id) = [] := by
              simp [List.filter, synthResumeResult_call_id, hne]
            rw [hsingle, List.append_nil]
        have hstep_any :
            (resumeStep href ctx acc tc0).any (fun r => r.call_id = tc.call_id)
              = acc.any (fun r => r.call_id = tc.call_id) := by
          unfold resumeStep
          split_ifs
          · rfl
          · rw [List.any_append]
            have hsingle : [synthResumeResult tc0 href ctx].any
                (fun r => r.call_id = tc.call_id) = false := by
              simp [List.any_cons, synthResumeResult_call_id, hne]
            rw [hsingle, Bool.or_false]
        rw [ih _ tc hmemrest hndrest, hstep_filter, hstep_any]

/-- A result list with pairwise distinct call ids has at most one entry
per call id. -/
lemma countP_call_id_le_one (l : List ToolResult) (cid : String)
    (h : (l.map (fun r => r.call_id)).Nodup) :
    l.countP (fun r => r.call_id = cid) ≤ 1 := by
  induction l with
  | nil => simp
  | cons r rest ih =>
      simp only [List.map_cons, List.nodup_cons] at h
      obtain ⟨hnotin, hnd⟩ := h
      rw [List.countP_cons]
      by_cases hr : r.call_id = cid
      · have hzero : rest.countP (fun r => r.call_id = cid) = 0 := by
          rw [List.countP_eq_zero]
          intro a ha
          simp only [decide_eq_true_eq]
          intro hac
          exact hnotin (List.mem_map.mpr ⟨a, ha, by rw [hac, hr]⟩)
        simp [hzero, hr]
      · simpa [hr] using ih hnd

/-- Claim C7: each `stopActiveAudioPlayback()` call increments the
global playback generation by exactly 1 (two calls by exactly 2), and a
task that snapshotted the generation before either call is stale after
both. -/
theorem stopActiveAudioPlayback_increments (st : PlaybackState) (g0 : Nat)
    (h : g0 ≤ st.generation) :
    (stopActiveAudioPlayback st).generation = st.generation + 1 ∧
    (stopActiveAudioPlayback (stopActiveAudioPlayback st)).generation
      = st.generation + 2 ∧
    wasPlaybackStoppedAfter g0
      (stopActiveAudioPlayback (stopActiveAudioPlayback st)) = true := by
  refine ⟨rfl, rfl, ?_⟩
  simp only [wasPlaybackStoppedAfter, stopActiveAudioPlayback, bne_iff_ne, ne_eq]
  omega

/-- Witness for C7 at a concrete state: generation 5, snapshot 3. -/
theorem stopActiveAudioPlayback_increments_witness :
    (stopActiveAudioPlayback ⟨5, []⟩).generation = 6 ∧
    (stopActiveAudioPlayback (stopActiveAudioPlayback ⟨5, []⟩)).generation = 7 ∧
    wasPlaybackStoppedAfter 3
      (stopActiveAudioPlayback (stopActiveAudioPlayback ⟨5, []⟩)) = true :=
  stopActiveAudioPlayback_increments ⟨5, []⟩ 3 (by decide)

/-- Claim C5 counterexample: for the object with a falsy non-boolean
`retryable` field (the number 0), `shouldFallbackToSse` answers false
although the field value is not the boolean `false` — so the stated
equivalence with `error.retryable !== false` fails. -/
theorem shouldFallbackToSse_claim_counterexample :
    shouldFallbackToSse (.obj [("retryable", .num 0)]) = false ∧
    jsGetField (.obj [("retryable", .num 0)]) "retryable" ≠ some (.bool false) := by
  refine ⟨rfl, ?_⟩
  intro h
  have h2 : some (JSVal.num 0) = some (JSVal.bool false) := h
  simp at h2

/-- Claim C5 (amended): `shouldFallbackToSse(error)` is true exactly
when the error does not carry a falsy `retryable` field; for
boolean-valued `retryable` fields this coincides with
`retryable !== false`: false for `retryable:false`, true for
`retryable:true`, for objects without the field, and for non-objects. -/
theorem shouldFallbackToSse_spec (e : JSVal) :
    (shouldFallbackToSse e = true ↔
      ∀ v, jsGetField e "retryable" = some v → v.truthy = true) ∧
    shouldFallbackToSse (.obj [("retryable", .bool false)]) = false ∧
    shouldFallbackToSse (.obj [("retryable", .bool true)]) = true ∧
    shouldFallbackToSse (.obj []) = true ∧
    shouldFallbackToSse (.str "boom") = true := by
  refine ⟨?_, rfl, rfl, rfl, rfl⟩
  cases e with
  | obj fields =>
      simp only [shouldFallbackToSse, jsGetField, JSVal.isObj, jsHasField]
      cases hf : fields.find? (fun f => f.1 = "retryable") with
      | none =>
          have hany : fields.any (fun f => decide (f.1 = "retryable")) = false := by
            rw [List.any_eq_false]
            intro x hx
            have := List.find?_eq_none.mp hf x hx
            simpa using this
          simp [hany]
      | some pr =>
          have hmem := List.mem_of_find?_eq_some hf
          have hp : pr.1 = "retryable" := by
            have := List.find?_some hf
            simpa using this
          have hany : fields.any (fun f => decide (f.1 = "retryable")) = true := by
            rw [List.any_eq_true]
            exact ⟨pr, hmem, by simpa using hp⟩
          simp only [hany, hf, Option.map_some', Option.getD_some, true_and, if_true]
          constructor
          · intro htr v hv
            obtain rfl : pr.2 = v := by simpa using hv
            exact htr
          · intro hall
            exact hall pr.2 rfl
  | null => simp [shouldFallbackToSse, jsGetField, JSVal.isObj]
  | undef => simp [shouldFallbackToSse, jsGetField, JSVal.isObj]
  | bool b => simp [shouldFallbackToSse, jsGetField, JSVal.isObj]
  | num n => simp [shouldFallbackToSse, jsGetField, JSVal.isObj]
  | str s => simp [shouldFallbackToSse, jsGetField, JSVal.isObj]
  | arr xs => simp [shouldFallbackToSse, jsGetField, JSVal.isObj, jsHasField]

/-- Witness for C5 (amended) at a truthy non-boolean `retryable`. -/
theorem shouldFallbackToSse_spec_witness :
    shouldFallbackToSse (.obj [("retryable", .num 2)]) = true := by
  refine (shouldFallbackToSse_spec (.obj [("retryable", .num 2)])).1.mpr ?_
  intro v hv
  have h2 : some (JSVal.num 2) = some v := hv
  obtain rfl : JSVal.num 2 = v := by simpa using h2
  rfl

/-- Claim C6: in `agentResumeStream`, the completed results are kept
unchanged at the front of the merged list; a pending call with no
completed result under its id gets exactly one synthesized result
(navigation embeds the page URL and context, other tools the
could-not-execute placeholder); a pending call that already has a
completed result keeps exactly it; so the merged list has exactly one
result per pending call. -/
theorem agentResumeResultMerge (completed : List ToolResult)
    (pending : List AgentToolCallInfo) (href ctx : String)
    (hcn : (completed.map (fun r => r.call_id)).Nodup)
    (hpn : (pending.map (fun tc => tc.call_id)).Nodup) :
    (buildResumeResults completed pending href ctx).take completed.length
      = completed ∧
    ∀ tc ∈ pending,
      ((∀ r ∈ completed, r.call_id ≠ tc.call_id) →
        (buildResumeResults completed pending href ctx).filter
            (fun r => r.call_id = tc.call_id)
          = [synthResumeResult tc href ctx]) ∧
      ((∃ r ∈ completed, r.call_id = tc.call_id) →
        (buildResumeResults completed pending href ctx).filter
            (fun r => r.call_id = tc.call_id)
          = completed.filter (fun r => r.call_id = tc.call_id)) ∧
      (buildResumeResults completed pending href ctx).countP
          (fun r => r.call_id = tc.call_id) = 1 := by
  constructor
  · obtain ⟨ext, hext⟩ := resumeFold_extends href ctx pending completed
    rw [buildResumeResults, hext]
    simp
  · intro tc hmem
    have hmain := resumeFold_filter_mem href ctx pending completed tc hmem hpn
    refine ⟨?_, ?_, ?_⟩
    · intro hnone
      have hany : completed.any (fun r => r.call_id = tc.call_id) = false := by
        rw [List.any_eq_false]
        intro r hr
        simpa using hnone r hr
      have hfilter : completed.filter (fun r => r.call_id = tc.call_id) = [] := by
        rw [List.filter_eq_nil_iff]
        intro r hr
        simpa using hnone r hr
      rw [buildResumeResults, hmain, hany, if_neg (by simp), hfilter, List.nil_append]
    · intro hsome
      have hany : completed.any (fun r => r.call_id = tc.call_id) = true := by
        rw [List.any_eq_true]
        obtain ⟨r, hr, he⟩ := hsome
        exact ⟨r, hr, by simpa using he⟩
      rw [buildResumeResults, hmain, hany, if_pos rfl, List.append_nil]
    · rw [List.countP_eq_length_filter, buildResumeResults, hmain]
      by_cases hany : completed.any (fun r => r.call_id = tc.call_id)
      · rw [hany, if_pos rfl, List.append_nil, ← List.countP_eq_length_filter]
        have hle := countP_call_id_le_one completed tc.call_id hcn
        have hpos : 0 < completed.countP (fun r => r.call_id = tc.call_id) := by
          rw [List.countP_pos_iff]
          obtain ⟨r, hr, he⟩ := List.any_eq_true.mp hany
          exact ⟨r, hr, he⟩
        omega
      · rw [Bool.not_eq_true] at hany
        rw [hany, if_neg (by simp), List.length_append, List.length_singleton]
        have hfilter : completed.filter (fun r => r.call_id = tc.call_id) = [] := by
          rw [List.filter_eq_nil_iff]
          intro r hr
          have := List.any_eq_false.mp hany r hr
          simpa using this
        rw [hfilter]
        rfl

/-- Witness for C6: completed result for call "a"; pending calls "a"
(kept), "b" (a navigate call, synthesized with URL and context) and "c"
(another tool, synthesized placeholder). -/
theorem agentResumeResultMerge_witness :
    (buildResumeResults [⟨"a", "done-a"⟩]
        [⟨"a", "search", []⟩, ⟨"b", "navigate", []⟩, ⟨"c", "click", []⟩]
        "https://x" "ctx").filter (fun r => r.call_id = "b")
      = [synthResumeResult ⟨"b", "navigate", []⟩ "https://x" "ctx"] ∧
    (buildResumeResults [⟨"a", "done-a"⟩]
        [⟨"a", "search", []⟩, ⟨"b", "navigate", []⟩, ⟨"c", "click", []⟩]
        "https://x" "ctx").take 1 = [⟨"a", "done-a"⟩] := by
  have h := agentResumeResultMerge [⟨"a", "done-a"⟩]
    [⟨"a", "search", []⟩, ⟨"b", "navigate", []⟩, ⟨"c", "click", []⟩]
    "https://x" "ctx" (by decide) (by decide)
  refine ⟨?_, h.1⟩
  have hb := (h.2 ⟨"b", "navigate", []⟩ (by simp)).1
  exact hb (by decide)

/-- Claim C8: for each agent stream variant (text, voice with its STT
phase, resume), one run of the done promise executor performs exactly
one settlement (resolve or reject); and when some error was already
reported through the `onError` callback by a WS handler, the catch
block on the rejection path does not report through `onError` again. -/
theorem agentStreamSingleSettlement
    (f : AgentToolCallInfo → ToolResult) (sid : Option String) (rsid : String)
    (sv0 s0 s1 s2 s3 : Bool) (stt : Except String SttWsResult)
    (events : List AgentWsEvent) (ttsWs : Except TtsErr (List String))
    (ttsSse : Except String (List String)) (playback : Except String Unit) :
    ((agentTextChatRun f sid s0 s1 s2 s3 events ttsWs ttsSse
        playback).settlements.length = 1 ∧
      ((agentTextChatRun f sid s0 s1 s2 s3 events ttsWs ttsSse
          playback).onErrorCallsInner ≠ [] →
        (agentTextChatRun f sid s0 s1 s2 s3 events ttsWs ttsSse
          playback).catchOnError = none)) ∧
    ((agentVoiceChatRun f sv0 stt s0 s1 s2 s3 events ttsWs ttsSse
        playback).settlements.length = 1 ∧
      ((agentVoiceChatRun f sv0 stt s0 s1 s2 s3 events ttsWs ttsSse
          playback).onErrorCallsInner ≠ [] →
        (agentVoiceChatRun f sv0 stt s0 s1 s2 s3 events ttsWs ttsSse
          playback).catchOnError = none)) ∧
    ((agentResumeRun f rsid s0 s1 s2 s3 events ttsWs ttsSse
        playback).settlements.length = 1 ∧
      ((agentResumeRun f rsid s0 s1 s2 s3 events ttsWs ttsSse
          playback).onErrorCallsInner ≠ [] →
        (agentResumeRun f rsid s0 s1 s2 s3 events ttsWs ttsSse
          playback).catchOnError = none)) := by
  refine ⟨?_, ?_, ?_⟩
  · exact agentOuterCore_spec "Agent WebSocket error" f (jsOrDefault sid "")
      s0 s1 s2 s3 events ttsWs ttsSse playback
  · unfold agentVoiceChatRun
    by_cases hv : sv0 = true
    · rw [if_pos hv]
      exact ⟨rfl, fun h => absurd rfl h⟩
    · rw [if_neg hv]
      cases stt with
      | error e => exact ⟨rfl, fun h => absurd rfl h⟩
      | ok r =>
          exact agentOuterCore_spec "Agent WebSocket connection error" f r.session_id
            s0 s1 s2 s3 events ttsWs ttsSse playback
  · exact agentOuterCore_spec "Agent WebSocket error" f rsid
      s0 s1 s2 s3 events ttsWs ttsSse playback

/-- Witness for C8: a text run whose agent socket delivers one server
error settles exactly once, with the error reported via `onError` by
the handler and not re-reported by the catch block. -/
theorem agentStreamSingleSettlement_witness :
    (agentTextChatRun (fun c => ⟨c.call_id, "r"⟩) (some "s") false false false false
        [.errorMsg (some "boom")] (.ok []) (.ok []) (.ok ())).settlements.length = 1 ∧
    (agentTextChatRun (fun c => ⟨c.call_id, "r"⟩) (some "s") false false false false
        [.errorMsg (some "boom")] (.ok []) (.ok []) (.ok ())).catchOnError = none := by
  have h := (agentStreamSingleSettlement (fun c => ⟨c.call_id, "r"⟩) (some "s") "rs"
    false false false false false (.ok ⟨"hello", "s1"⟩)
    [.errorMsg (some "boom")] (.ok []) (.ok []) (.ok ())).1
  exact ⟨h.1, h.2 (by decide)⟩

/-- Claim C9: both WS payload parsers are total: a non-string input
gives `null`; a string that `JSON.parse` rejects gives `null` (the
exception is caught); a string that parses gives the parsed payload. -/
theorem parseWsEventPayload_total (v : JSVal) (s : String) (p : JSVal) :
    (v.isStr = false →
      parseTtsWsEventPayload v = .null ∧ parseSttWsEventPayload v = .null) ∧
    (jsonParse s = none →
      parseTtsWsEventPayload (.str s) = .null ∧
      parseSttWsEventPayload (.str s) = .null) ∧
    (jsonParse s = some p →
      parseTtsWsEventPayload (.str s) = p ∧ parseSttWsEventPayload (.str s) = p) := by
  refine ⟨?_, ?_, ?_⟩
  · intro hv
    cases v <;> simp_all [parseTtsWsEventPayload, parseSttWsEventPayload, JSVal.isStr]
  · intro hs
    simp [parseTtsWsEventPayload, parseSttWsEventPayload, hs]
  · intro hs
    simp [parseTtsWsEventPayload, parseSttWsEventPayload, hs]

/-- Witness for C9: a number input, an invalid JSON string, and a valid
JSON payload string. -/
theorem parseWsEventPayload_total_witness :
    (parseTtsWsEventPayload (.num 3) = .null ∧
      parseSttWsEventPayload (.num 3) = .null) ∧
    (parseTtsWsEventPayload (.str "\x7b") = .null ∧
      parseSttWsEventPayload (.str "\x7b") = .null) ∧
    (parseTtsWsEventPayload (.str "\x7b\"type\":\"done\"\x7d")
        = .obj [("type", .str "done")] ∧
      parseSttWsEventPayload (.str "\x7b\"type\":\"done\"\x7d")
        = .obj [("type", .str "done")]) :=
  ⟨(parseWsEventPayload_total (.num 3) "" .null).1 rfl,
    (parseWsEventPayload_total .null "\x7b" .null).2.1 rfl,
    (parseWsEventPayload_total .null "\x7b\"type\":\"done\"\x7d"
      (.obj [("type", .str "done")])).2.2 rfl⟩

/-- Claim C10 counterexample: the stored string is the JSON text of the
empty object — it parses, has no `savedAt` at all, and is nevertheless
returned (the NaN comparison is false), so a corrupt checkpoint is
consumed. -/
theorem getPendingAgentResume_claim_counterexample :
    (getPendingAgentResume (some "\x7b\x7d") 1000000).1 = some (.obj []) ∧
    jsGetField (.obj []) "savedAt" = none :=
  ⟨rfl, rfl⟩

/-- Claim C10 (amended): `getPendingAgentResume` returns null when
nothing is stored; clears and returns null when the stored string does
not JSON-parse, or when it parses with a numeric `savedAt` older than
`RESUME_TTL_MS`; otherwise (including parsed records whose `savedAt` is
missing or non-numeric, for which the staleness comparison is a false
NaN comparison) it returns the parsed record and leaves it stored. -/
theorem getPendingAgentResume_spec (stored : Option String) (now : Int) :
    (stored = none → getPendingAgentResume stored now = (none, none)) ∧
    (∀ raw, stored = some raw → jsonParse raw = none →
      getPendingAgentResume stored now = (none, none)) ∧
    (∀ raw p n, stored = some raw → jsonParse raw = some p →
      jsToNumber (jsGetField p "savedAt") = some n → now - n > RESUME_TTL_MS →
      getPendingAgentResume stored now = (none, none)) ∧
    (∀ raw p, stored = some raw → jsonParse raw = some p →
      jsSubGt now (jsGetField p "savedAt") RESUME_TTL_MS = false →
      getPendingAgentResume stored now = (some p, some raw)) := by
  refine ⟨?_, ?_, ?_, ?_⟩
  · rintro rfl
    rfl
  · rintro raw rfl hparse
    simp [getPendingAgentResume, hparse]
  · rintro raw p n rfl hparse hnum hold
    simp only [getPendingAgentResume, hparse]
    have hgt : jsSubGt now (jsGetField p "savedAt") RESUME_TTL_MS = true := by
      simp [jsSubGt, hnum, hold]
    simp [hgt]
  · rintro raw p rfl hparse hfresh
    simp [getPendingAgentResume, hparse, hfresh]

/-- Witness for C10 (amended): a fresh record is returned; a stale
record (savedAt 1 at time 100000) is cleared. -/
theorem getPendingAgentResume_spec_witness :
    getPendingAgentResume (some "\x7b\"savedAt\":90000\x7d") 100000
      = (some (.obj [("savedAt", .num 90000)]), some "\x7b\"savedAt\":90000\x7d") ∧
    getPendingAgentResume (some "\x7b\"savedAt\":1\x7d") 100000 = (none, none) :=
  ⟨(getPendingAgentResume_spec (some "\x7b\"savedAt\":90000\x7d") 100000).2.2.2
      "\x7b\"savedAt\":90000\x7d" (.obj [("savedAt", .num 90000)]) rfl rfl rfl,
    (getPendingAgentResume_spec (some "\x7b\"savedAt\":1\x7d") 100000).2.2.1
      "\x7b\"savedAt\":1\x7d" (.obj [("savedAt", .num 1)]) 1 rfl rfl rfl (by decide)⟩

/-- Claim C1: `shouldAcceptAudioSeq(a, b)` is exactly `a > b`; in a TTS
session an audio chunk whose seq is at or below `highestSeqSeen` is
discarded (buffer, mark and history unchanged), the mark changes only
when a chunk is accepted (and then to the accepted seq), and hence the
seqs of the accepted chunks of a session are strictly increasing. -/
theorem ttsSequencing :
    (∀ a b : Int, shouldAcceptAudioSeq a b = decide (a > b)) ∧
    (∀ (st : TtsConnState) (p : TtsWsEventPayload),
      p.type = some "audio" → p.audio.isSome = true →
      (p.seq.getD 0 ≤ st.highestSeqSeen →
        (ttsHandleMessage st p).chunks = st.chunks ∧
        (ttsHandleMessage st p).highestSeqSeen = st.highestSeqSeen ∧
        (ttsHandleMessage st p).acceptedSeqs = st.acceptedSeqs) ∧
      (p.seq.getD 0 > st.highestSeqSeen →
        (ttsHandleMessage st p).chunks = st.chunks ++ [p.audio.getD ""] ∧
        (ttsHandleMessage st p).highestSeqSeen = p.seq.getD 0 ∧
        (ttsHandleMessage st p).acceptedSeqs = st.acceptedSeqs ++ [p.seq.getD 0])) ∧
    (∀ (st : TtsConnState) (p : TtsWsEventPayload),
      (ttsHandleMessage st p).highestSeqSeen = st.highestSeqSeen ∨
      (p.type = some "audio" ∧ p.audio.isSome = true ∧
        shouldAcceptAudioSeq (p.seq.getD 0) st.highestSeqSeen = true ∧
        (ttsHandleMessage st p).highestSeqSeen = p.seq.getD 0 ∧
        (ttsHandleMessage st p).acceptedSeqs = st.acceptedSeqs ++ [p.seq.getD 0])) ∧
    (∀ msgs : List TtsWsEventPayload,
      List.Chain' (· < ·) ((ttsConnRun ttsConnInit msgs).acceptedSeqs)) := by
  refine ⟨fun a b => rfl, ?_, ?_, ?_⟩
  · intro st p ht ha
    constructor
    · intro hle
      obtain ⟨h1, h2, h3, -⟩ := ttsHandleMessage_audio_dup st p ⟨ht, ha⟩ hle
      exact ⟨h1, h2, h3⟩
    · intro hgt
      obtain ⟨h1, h2, h3, -⟩ := ttsHandleMessage_audio_accept st p ⟨ht, ha⟩ hgt
      exact ⟨h1, h2, h3⟩
  · intro st p
    by_cases h1 : p.type = some "audio" ∧ p.audio.isSome = true
    · by_cases hacc : p.seq.getD 0 > st.highestSeqSeen
      · obtain ⟨-, h2, h3, -⟩ := ttsHandleMessage_audio_accept st p h1 hacc
        exact Or.inr ⟨h1.1, h1.2, by simpa [shouldAcceptAudioSeq] using hacc, h2, h3⟩
      · obtain ⟨-, h2, -, -⟩ := ttsHandleMessage_audio_dup st p h1 (not_lt.mp hacc)
        exact Or.inl h2
    · exact Or.inl (ttsHandleMessage_nonaudio st p h1).2.1
  · intro msgs
    exact (ttsConnRun_seqInv ttsConnInit msgs ttsSeqInv_init).1

/-- Witness for C1: `shouldAcceptAudioSeq(5,4)`, a discarded duplicate
at seq 3 against mark 4, and a strictly increasing accepted-seq history
for a session that sees seqs 1, 2 and then a duplicate 2. -/
theorem ttsSequencing_witness :
    shouldAcceptAudioSeq 5 4 = true ∧
    (ttsHandleMessage { ttsConnInit with highestSeqSeen := 4 }
        { type := some "audio", audio := some "QUJD", seq := some 3 }).chunks = [] ∧
    List.Chain' (· < ·) ((ttsConnRun ttsConnInit
      [{ type := some "audio", audio := some "YQ==", seq := some 1 },
       { type := some "audio", audio := some "Yg==", seq := some 2 },
       { type := some "audio", audio := some "Yg==", seq := some 2 }]).acceptedSeqs) :=
  ⟨(ttsSequencing.1 5 4).trans (by decide),
    ((ttsSequencing.2.1 { ttsConnInit with highestSeqSeen := 4 }
        { type := some "audio", audio := some "QUJD", seq := some 3 }
        rfl rfl).1 (by decide)).1,
    ttsSequencing.2.2.2
      [{ type := some "audio", audio := some "YQ==", seq := some 1 },
       { type := some "audio", audio := some "Yg==", seq := some 2 },
       { type := some "audio", audio := some "Yg==", seq := some 2 }]⟩

/-- Claim C2: on a `done` message whose reported `last_seq` exceeds
`highestSeqSeen`, the attempt records a retryable sequence-gap error
and its close rejects with it; when the reported `last_seq` is at most
`highestSeqSeen` — including when it is absent, defaulting to
`highestSeqSeen` — the attempt completes successfully on close. -/
theorem ttsDoneSequenceGap (st : TtsConnState) (ls : Option Int) :
    (ls.getD st.highestSeqSeen > st.highestSeqSeen →
      (ttsHandleMessage st { type := some "done", last_seq := ls }).done = false ∧
      (ttsHandleMessage st { type := some "done", last_seq := ls }).finalError
        = some ⟨"tts_ws_sequence_gap", true⟩ ∧
      ttsHandleClose false (ttsHandleMessage st { type := some "done", last_seq := ls })
        = .error ⟨"tts_ws_sequence_gap", true⟩) ∧
    (ls.getD st.highestSeqSeen ≤ st.highestSeqSeen →
      (ttsHandleMessage st { type := some "done", last_seq := ls }).done = true ∧
      ttsHandleClose false (ttsHandleMessage st { type := some "done", last_seq := ls })
        = .ok ()) := by
  constructor
  · intro hgt
    refine ⟨?_, ?_, ?_⟩ <;>
      simp [ttsHandleMessage, ttsHandleClose, hgt]
  · intro hle
    have hngt : ¬ ls.getD st.highestSeqSeen > st.highestSeqSeen := not_lt.mpr hle
    refine ⟨?_, ?_⟩ <;>
      simp [ttsHandleMessage, ttsHandleClose, hngt]

/-- Witness for C2: a gap (`done{last_seq:5}` after seq 3) rejects with
the retryable gap error; an absent `last_seq` resolves. -/
theorem ttsDoneSequenceGap_witness :
    (ttsHandleMessage { ttsConnInit with highestSeqSeen := 3 }
        { type := some "done", last_seq := some 5 }).done = false ∧
    ttsHandleClose false (ttsHandleMessage { ttsConnInit with highestSeqSeen := 3 }
        { type := some "done", last_seq := some 5 })
      = .error ⟨"tts_ws_sequence_gap", true⟩ ∧
    ttsHandleClose false (ttsHandleMessage { ttsConnInit with highestSeqSeen := 3 }
        { type := some "done", last_seq := none })
      = .ok () :=
  ⟨((ttsDoneSequenceGap { ttsConnInit with highestSeqSeen := 3 } (some 5)).1
      (by decide)).1,
    ((ttsDoneSequenceGap { ttsConnInit with highestSeqSeen := 3 } (some 5)).1
      (by decide)).2.2,
    ((ttsDoneSequenceGap { ttsConnInit with highestSeqSeen := 3 } none).2
      (by decide)).2⟩

/-- Claim C3 (failing input): the STT session receives
`final{text:" ", session_id:"s1"}` and then the socket closes.  The
completion condition is unmet (the text trims to empty), yet the close
handler — whose guard tests `finalText` for truthiness rather than for
a non-empty trim — calls `resolveDoneIfPossible`, which declines, and
never reaches `rejectAll`: the done promise ends the session neither
resolved nor rejected, where the specified behaviour is a rejection
with a retryable error. -/
theorem sttCloseAfterWhitespaceFinal :
    (sttSessionRun none
        [{ type := some "final", text := some " ", session_id := some "s1" }]).outcome.isNone
      = true ∧
    (sttSessionRun none
        [{ type := some "final", text := some " ", session_id := some "s1" }]).settled
      = false ∧
    jsTrim " " = "" := by
  refine ⟨?_, ?_, by decide⟩ <;> decide

/-- Claim C4: the retry ladder constant is exactly `[250, 750, 1500]`;
a run whose first `k` attempts fail retryably sleeps exactly the first
`k` ladder delays in order, and then either returns the successful
attempt's value, or propagates the first non-retryable failure, or
propagates the retryable failure of the last allowed attempt (initial
attempt plus three retries). -/
theorem ttsRetryLadder {α : Type} (f : Nat → Except TtsErr α) :
    TTS_WS_RETRY_DELAYS_MS = [250, 750, 1500] ∧
    (∀ (k : Nat) (r : α), k ≤ 3 →
      (∀ j, j < k → ∃ e, f j = .error e ∧ e.retryable = true) →
      f k = .ok r →
      ttsRetryLoop f = (TTS_WS_RETRY_DELAYS_MS.take k, .ok r)) ∧
    (∀ (k : Nat) (e : TtsErr), k ≤ 3 →
      (∀ j, j < k → ∃ e', f j = .error e' ∧ e'.retryable = true) →
      f k = .error e → (e.retryable = false ∨ k = 3) →
      ttsRetryLoop f = (TTS_WS_RETRY_DELAYS_MS.take k, .error e)) := by
  refine ⟨rfl, ?_, ?_⟩
  · intro k r hk hfail hsucc
    interval_cases k
    · simp [ttsRetryLoop, ttsRetryAux, hsucc, TTS_WS_RETRY_DELAYS_MS]
    · obtain ⟨e0, h0, hr0⟩ := hfail 0 (by norm_num)
      simp [ttsRetryLoop, ttsRetryAux, h0, hr0, hsucc,
        shouldFallbackToSse_ttsErrToJs, TTS_WS_RETRY_DELAYS_MS]
    · obtain ⟨e0, h0, hr0⟩ := hfail 0 (by norm_num)
      obtain ⟨e1, h1, hr1⟩ := hfail 1 (by norm_num)
      simp [ttsRetryLoop, ttsRetryAux, h0, hr0, h1, hr1, hsucc,
        shouldFallbackToSse_ttsErrToJs, TTS_WS_RETRY_DELAYS_MS]
    · obtain ⟨e0, h0, hr0⟩ := hfail 0 (by norm_num)
      obtain ⟨e1, h1, hr1⟩ := hfail 1 (by norm_num)
      obtain ⟨e2, h2, hr2⟩ := hfail 2 (by norm_num)
      simp [ttsRetryLoop, ttsRetryAux, h0, hr0, h1, hr1, h2, hr2, hsucc,
        shouldFallbackToSse_ttsErrToJs, TTS_WS_RETRY_DELAYS_MS]
  · intro k e hk hfail herr hstop
    have hcond : shouldFallbackToSse (ttsErrToJs e) = false
        ∨ k = TTS_WS_RETRY_DELAYS_MS.length := by
      rcases hstop with h | h
      · exact Or.inl (by rw [shouldFallbackToSse_ttsErrToJs]; exact h)
      · exact Or.inr (by simpa [TTS_WS_RETRY_DELAYS_MS] using h)
    interval_cases k
    · simp [ttsRetryLoop, ttsRetryAux, herr, TTS_WS_RETRY_DELAYS_MS,
        shouldFallbackToSse_ttsErrToJs]
      rcases hcond with h | h
      · simp [shouldFallbackToSse_ttsErrToJs] at h
        simp [h]
      · simp [TTS_WS_RETRY_DELAYS_MS] at h
    · obtain ⟨e0, h0, hr0⟩ := hfail 0 (by norm_num)
      rcases hcond with h | h
      · simp only [shouldFallbackToSse_ttsErrToJs] at h
        simp [ttsRetryLoop, ttsRetryAux, h0, hr0, herr, h,
          shouldFallbackToSse_ttsErrToJs, TTS_WS_RETRY_DELAYS_MS]
      · simp [TTS_WS_RETRY_DELAYS_MS] at h
    · obtain ⟨e0, h0, hr0⟩ := hfail 0 (by norm_num)
      obtain ⟨e1, h1, hr1⟩ := hfail 1 (by norm_num)
      rcases hcond with h | h
      · simp only [shouldFallbackToSse_ttsErrToJs] at h
        simp [ttsRetryLoop, ttsRetryAux, h0, hr0, h1, hr1, herr, h,
          shouldFallbackToSse_ttsErrToJs, TTS_WS_RETRY_DELAYS_MS]
      · simp [TTS_WS_RETRY_DELAYS_MS] at h
    · obtain ⟨e0, h0, hr0⟩ := hfail 0 (by norm_num)
      obtain ⟨e1, h1, hr1⟩ := hfail 1 (by norm_num)
      obtain ⟨e2, h2, hr2⟩ := hfail 2 (by norm_num)
      simp [ttsRetryLoop, ttsRetryAux, h0, hr0, h1, hr1, h2, hr2, herr,
        shouldFallbackToSse_ttsErrToJs, TTS_WS_RETRY_DELAYS_MS]

/-- Witness for C4: with the first attempt failing retryably and the
second succeeding, exactly the first ladder delay is slept. -/
theorem ttsRetryLadder_witness :
    ttsRetryLoop
        (fun n => if n = 0 then (.error ⟨"boom", true⟩ : Except TtsErr Unit) else .ok ())
      = ([250], .ok ()) := by
  have h := (ttsRetryLadder
      (fun n => if n = 0 then (.error ⟨"boom", true⟩ : Except TtsErr Unit) else .ok ())).2.1
      1 () (by norm_num)
      (by
        intro j hj
        interval_cases j
        exact ⟨⟨"boom", true⟩, rfl, rfl⟩)
      (by norm_num)
  simpa [TTS_WS_RETRY_DELAYS_MS] using h

end Bulut
